import Mathlib

/-!
A verification development for the RemoteView client ingest pipeline:
the binary tile-frame decoder (`parseTileFrame.ts`), the decompression
worker pool (`DecompressionPool`), and the adaptive quality controller
(`AdaptiveQuality.ts`).  Buffers are lists of bytes, JS numbers are
naturals or rationals, and the stateful classes are explicit state
records with pure transition functions.
-/

set_option maxRecDepth 20000

namespace RemoteView

/-! ## Byte-level buffer reads (DataView, little-endian).
An out-of-range read returns `none`, mirroring the `RangeError` a
`DataView` accessor throws in JavaScript. -/

def getU8 (buf : List Nat) (i : Nat) : Option Nat :=
  buf.get? i

def getU16 (buf : List Nat) (i : Nat) : Option Nat :=
  match buf.get? i, buf.get? (i+1) with
  | some b0, some b1 => some (b0 + 256 * b1)
  | _, _ => none

def getU32 (buf : List Nat) (i : Nat) : Option Nat :=
  match buf.get? i, buf.get? (i+1), buf.get? (i+2), buf.get? (i+3) with
  | some b0, some b1, some b2, some b3 =>
      some (b0 + 256 * b1 + 65536 * b2 + 16777216 * b3)
  | _, _, _, _ => none

/-! ## Frame decoder data model (src/protocol/parseTileFrame.ts) -/

inductive ParseError where
  | bufferTooShort
  | invalidMessageType
  | invalidPlaneType
  | invalidDataType
  | invalidCompressionType
  | invalidTileDimensions
  | invalidPayloadSize
  | payloadSizeMismatch
  | uncompressedSizeMismatch
  | corruptedHeader
  | endiannessMismatch
  deriving DecidableEq

structure ValidationLimits where
  maxTileWidth : Nat
  maxTileHeight : Nat
  maxCoordinate : Nat
  maxSliceIndex : Nat
  maxPixelsPerTile : Nat
  maxPayloadSize : Nat
  deriving DecidableEq

def LIMITS : ValidationLimits :=
  { maxTileWidth := 2048
    maxTileHeight := 2048
    maxCoordinate := 1000000
    maxSliceIndex := 100000
    maxPixelsPerTile := 4 * 1024 * 1024
    maxPayloadSize := 16 * 1024 * 1024 }

def TILE_HEADER_SIZE : Nat := 24

def EXPECTED_MSG_TYPE : Nat := 1

structure TileHeader where
  msgType : Nat
  plane : Nat
  tileW : Nat
  tileH : Nat
  tileX : Nat
  tileY : Nat
  sliceIndex : Nat
  dtype : Nat
  compression : Nat
  uncompressedBytes : Nat
  payloadBytes : Nat
  deriving DecidableEq

structure TileData where
  header : TileHeader
  payload : List Nat
  deriving DecidableEq

def planeTypeValues : List Nat := [0, 1, 2]

def dataTypeValues : List Nat := [0, 1, 2, 3]

def compressionTypeValues : List Nat := [0, 1, 2]

def isValidPlaneType (v : Nat) : Bool :=
  decide (v ≤ 2) && planeTypeValues.contains v

def isValidDataType (v : Nat) : Bool :=
  dataTypeValues.contains v

def isValidCompressionType (v : Nat) : Bool :=
  compressionTypeValues.contains v

def getBytesPerSample (dtype : Nat) : Nat :=
  match dtype with
  | 0 => 1
  | 3 => 1
  | 1 => 2
  | 2 => 4
  | _ => 1

/-- `TileFrameParser.parseHeader`: sequential reads interleaved with the
validation checks, in source order.  A failing read (out of range) maps
to `corruptedHeader`, mirroring the `try/catch` around the body. -/
def parseHeader (buf : List Nat) : Except ParseError TileHeader :=
  match getU8 buf 0 with
  | none => .error .corruptedHeader
  | some msgType =>
    if msgType ≠ EXPECTED_MSG_TYPE then .error .invalidMessageType
    else match getU8 buf 1 with
    | none => .error .corruptedHeader
    | some planeValue =>
      if ¬ isValidPlaneType planeValue then .error .invalidPlaneType
      else match getU16 buf 2 with
      | none => .error .corruptedHeader
      | some tileW =>
      match getU16 buf 4 with
      | none => .error .corruptedHeader
      | some tileH =>
        if tileW = 0 ∨ tileH = 0 ∨ tileW > LIMITS.maxTileWidth ∨ tileH > LIMITS.maxTileHeight then
          .error .invalidTileDimensions
        else if tileW * tileH > LIMITS.maxPixelsPerTile then
          .error .invalidTileDimensions
        else match getU32 buf 6 with
        | none => .error .corruptedHeader
        | some tileX =>
        match getU32 buf 10 with
        | none => .error .corruptedHeader
        | some tileY =>
        match getU32 buf 14 with
        | none => .error .corruptedHeader
        | some sliceIndex =>
          if tileX > LIMITS.maxCoordinate ∨ tileY > LIMITS.maxCoordinate ∨
              sliceIndex > LIMITS.maxSliceIndex then
            .error .invalidTileDimensions
          else match getU8 buf 18 with
          | none => .error .corruptedHeader
          | some dtype =>
          match getU8 buf 19 with
          | none => .error .corruptedHeader
          | some compression =>
            if ¬ isValidDataType dtype then .error .invalidDataType
            else if ¬ isValidCompressionType compression then .error .invalidCompressionType
            else match getU32 buf 20 with
            | none => .error .corruptedHeader
            | some uncompressedBytes =>
              match getU32 buf 24 with
              | none => .error .corruptedHeader
              | some payloadBytes =>
                if payloadBytes > LIMITS.maxPayloadSize then .error .invalidPayloadSize
                else if compression = 0 ∧ uncompressedBytes ≠ payloadBytes then
                  .error .uncompressedSizeMismatch
                else if uncompressedBytes ≠ tileW * tileH * getBytesPerSample dtype then
                  .error .uncompressedSizeMismatch
                else .ok ⟨msgType, planeValue, tileW, tileH, tileX, tileY, sliceIndex,
                          dtype, compression, uncompressedBytes, payloadBytes⟩

def validatePayload (payload : List Nat) (header : TileHeader) : Option ParseError :=
  if payload.length ≠ header.payloadBytes then some .payloadSizeMismatch
  else if header.compression ≠ 0 ∧ payload.length > header.uncompressedBytes then
    some .invalidPayloadSize
  else none

inductive ParseResult where
  | ok (data : TileData)
  | err (error : ParseError) (droppedBytes : Nat)
  deriving DecidableEq

def ParseResult.success : ParseResult → Bool
  | .ok _ => true
  | .err _ _ => false

structure ParserStats where
  frameCount : Nat
  droppedFrames : Nat
  lastError : Option ParseError
  deriving DecidableEq

def initialParserStats : ParserStats := ⟨0, 0, none⟩

def recordDrop (st : ParserStats) (e : ParseError) : ParserStats :=
  { st with droppedFrames := st.droppedFrames + 1, lastError := some e }

/-- `TileFrameParser.parse`: increments the frame counter, validates the
buffer, extracts the payload view, and reports every failure as an error
result that carries the dropped byte count. -/
def parse (st : ParserStats) (buf : List Nat) : ParserStats × ParseResult :=
  let st := { st with frameCount := st.frameCount + 1 }
  if buf.length < TILE_HEADER_SIZE then
    (recordDrop st .bufferTooShort, .err .bufferTooShort buf.length)
  else
    match parseHeader buf with
    | .error e => (recordDrop st e, .err e buf.length)
    | .ok header =>
      if buf.length ≠ TILE_HEADER_SIZE + header.payloadBytes then
        (recordDrop st .payloadSizeMismatch, .err .payloadSizeMismatch buf.length)
      else
        let payload := (buf.drop TILE_HEADER_SIZE).take header.payloadBytes
        match validatePayload payload header with
        | some e => (recordDrop st e, .err e buf.length)
        | none => (st, .ok ⟨header, payload⟩)

structure FrameStats where
  totalFrames : Nat
  droppedFrames : Nat
  successRate : ℚ
  lastError : Option ParseError
  deriving DecidableEq

def getStats (st : ParserStats) : FrameStats :=
  { totalFrames := st.frameCount
    droppedFrames := st.droppedFrames
    successRate :=
      if 0 < st.frameCount then
        ((st.frameCount : ℚ) - st.droppedFrames) / st.frameCount
      else 1
    lastError := st.lastError }

def resetStats (_st : ParserStats) : ParserStats := initialParserStats

/-- States of the frame decoder reachable from a fresh instance through
`parse` and `resetStats` calls. -/
inductive ReachableStats : ParserStats → Prop where
  | init : ReachableStats initialParserStats
  | step (st : ParserStats) (buf : List Nat) :
      ReachableStats st → ReachableStats (parse st buf).1
  | reset (st : ParserStats) :
      ReachableStats st → ReachableStats (resetStats st)

/-! ## Decompression worker pool (src/workers/DecompressionPool.ts).
Workers are identified by index.  Promise settlements are recorded in an
`events` log; `dispatched` records each `postMessage`, i.e. which worker
each task was actually sent to. -/

structure Task where
  id : Nat
  data : List Nat
  compression : Nat
  uncompressedSize : Nat
  deriving DecidableEq

inductive TaskOutcome where
  | resolved (data : List Nat)
  | failed (error : String)
  | droppedBackpressure
  | workerFault (message : String)
  | disposed
  deriving DecidableEq

structure PoolStats where
  totalTasks : Nat
  completedTasks : Nat
  averageTimeMs : ℚ
  queueLength : Nat
  activeWorkers : Nat
  droppedTasks : Nat
  deriving DecidableEq

structure PoolState where
  workers : List Nat
  availableWorkers : List Nat
  busyWorkers : List Nat
  taskQueue : List Task
  pendingTasks : List (Nat × Task)
  nextTaskId : Nat
  maxQueueSize : Nat
  stats : PoolStats
  events : List (Nat × TaskOutcome)
  dispatched : List (Nat × Nat)
  deriving DecidableEq

def addToSet (s : List Nat) (w : Nat) : List Nat :=
  if s.contains w then s else s ++ [w]

/-- `Math.min(poolSize, navigator.hardwareConcurrency || 4)` (`hw` is the
reported hardware concurrency; `0` models a falsy value). -/
def effectivePoolSize (poolSize hw : Nat) : Nat :=
  min poolSize (if hw = 0 then 4 else hw)

/-- The constructor: clamp the pool size, then create the workers, all
starting available. -/
def mkPool (poolSize maxQueueSize hw : Nat) : PoolState :=
  let effectiveSize := effectivePoolSize poolSize hw
  { workers := List.range effectiveSize
    availableWorkers := List.range effectiveSize
    busyWorkers := []
    taskQueue := []
    pendingTasks := []
    nextTaskId := 1
    maxQueueSize := maxQueueSize
    stats := ⟨0, 0, 0, 0, 0, 0⟩
    events := []
    dispatched := [] }

def updateStats (st : PoolState) : PoolState :=
  { st with stats := { st.stats with
      queueLength := st.taskQueue.length
      activeWorkers := st.busyWorkers.length } }

/-- `processNextTask`: when the queue is non-empty and a worker is free,
pop the head task, mark the worker busy, track the task as pending and
post it to the worker. -/
def processNextTask (st : PoolState) : PoolState :=
  match st.taskQueue, st.availableWorkers with
  | task :: qrest, w :: arest =>
    updateStats
      { st with
        taskQueue := qrest
        availableWorkers := arest
        busyWorkers := addToSet st.busyWorkers w
        pendingTasks := st.pendingTasks ++ [(task.id, task)]
        dispatched := st.dispatched ++ [(task.id, w)] }
  | _, _ => st

inductive DecompressResult where
  | immediate (data : List Nat)
  | queued (id : Nat)
  deriving DecidableEq

/-- `DecompressionPool.decompress`: `None` payloads return immediately.
Otherwise, if the queue is at capacity the oldest queued task is evicted
and rejected, then the new task is enqueued and dispatch is attempted. -/
def decompress (st : PoolState) (data : List Nat) (compression uncompressedSize : Nat) :
    PoolState × DecompressResult :=
  if compression = 0 then (st, .immediate data)
  else
    let st :=
      if st.taskQueue.length ≥ st.maxQueueSize then
        match st.taskQueue with
        | droppedTask :: rest =>
          { st with
            taskQueue := rest
            events := st.events ++ [(droppedTask.id, .droppedBackpressure)]
            stats := { st.stats with droppedTasks := st.stats.droppedTasks + 1 } }
        | [] => st
      else st
    let task : Task := ⟨st.nextTaskId, data, compression, uncompressedSize⟩
    let st :=
      { st with
        nextTaskId := st.nextTaskId + 1
        stats := { st.stats with totalTasks := st.stats.totalTasks + 1 }
        taskQueue := st.taskQueue ++ [task] }
    (processNextTask st, .queued task.id)

def updateAverageTime (st : PoolState) (newTime : ℚ) : PoolState :=
  let oldAvg := st.stats.averageTimeMs
  let count := st.stats.completedTasks
  { st with stats := { st.stats with
      averageTimeMs := (oldAvg * ((count : ℚ) - 1) + newTime) / count } }

structure WorkerResponse where
  id : Nat
  success : Bool
  data : List Nat
  error : String
  timing : Option ℚ

/-- `handleWorkerMessage`: complete the pending task with the worker's
response, return the worker to the available list and dispatch the next
queued task. -/
def handleWorkerMessage (st : PoolState) (w : Nat) (response : WorkerResponse) : PoolState :=
  match st.pendingTasks.lookup response.id with
  | none => st
  | some _task =>
    let st :=
      { st with
        pendingTasks := st.pendingTasks.filter (fun p => p.1 ≠ response.id)
        busyWorkers := st.busyWorkers.erase w
        availableWorkers := st.availableWorkers ++ [w]
        stats := { st.stats with completedTasks := st.stats.completedTasks + 1 } }
    let st :=
      match response.timing with
      | some t => if t = 0 then st else updateAverageTime st t
      | none => st
    let st :=
      { st with events := st.events ++
          [(response.id, if response.success then .resolved response.data
                         else .failed response.error)] }
    processNextTask st

/-- The rejection loop in `handleWorkerError`: iterate over the pending
map; an entry is deleted and rejected when `busyWorkers.has(worker)`
holds (the condition the source actually tests). -/
def rejectPendingLoop (busy : List Nat) (w : Nat) (message : String) :
    List (Nat × Task) → List (Nat × Task) × List (Nat × TaskOutcome)
  | [] => ([], [])
  | (taskId, task) :: rest =>
    let (p, ev) := rejectPendingLoop busy w message rest
    if busy.contains w then (p, (taskId, .workerFault message) :: ev)
    else ((taskId, task) :: p, ev)

/-- `handleWorkerError`: reject pending tasks per `rejectPendingLoop`,
then remove the faulted worker from the busy set without returning it to
the available list. -/
def handleWorkerError (st : PoolState) (w : Nat) (message : String) : PoolState :=
  let (pending, rejected) := rejectPendingLoop st.busyWorkers w message st.pendingTasks
  { st with
    pendingTasks := pending
    events := st.events ++ rejected
    busyWorkers := st.busyWorkers.erase w }

/-- `dispose`: reject every pending then every queued task with a
disposal error, terminate all workers and clear all collections.  The
counters in `stats` are left untouched. -/
def dispose (st : PoolState) : PoolState :=
  { st with
    workers := []
    availableWorkers := []
    busyWorkers := []
    taskQueue := []
    pendingTasks := []
    events := st.events
      ++ st.pendingTasks.map (fun p => (p.1, TaskOutcome.disposed))
      ++ st.taskQueue.map (fun t => (t.id, TaskOutcome.disposed)) }

def getQueuePressure (st : PoolState) : ℚ :=
  (st.taskQueue.length : ℚ) / st.maxQueueSize

def shouldBackOff (st : PoolState) : Bool :=
  decide (getQueuePressure st > 4/5)

/-- `TileDecompressor.decompress` (src/protocol/index.ts) forwards every
call to the pool unchanged. -/
def tileDecompressorDecompress (st : PoolState) (data : List Nat)
    (compression uncompressedSize : Nat) : PoolState × DecompressResult :=
  decompress st data compression uncompressedSize

/-- Submit `n` identical compressed (LZ4) tasks in a row, none completing. -/
def submitN (st : PoolState) : Nat → PoolState
  | 0 => st
  | n+1 => (decompress (submitN st n) [0] 1 0).1

def mkSubmitTask (i : Nat) : Task := ⟨i, [0], 1, 0⟩

/-! ## Adaptive quality controller (src/network/AdaptiveQuality.ts).
Data types use the enum values of src/types: U8 = 0, U16 = 1, F32 = 2,
MuLawU8 = 3.  Metrics are rationals (JS numbers). -/

structure QualitySettings where
  dtype : Nat
  downsample : Nat
  reason : Option String
  deriving DecidableEq

structure PerformanceMetrics where
  fps : ℚ
  avgFrameTime : ℚ
  droppedFrames : ℚ
  uploadLatency : ℚ
  bandwidthUtilization : ℚ
  memoryPressure : ℚ
  deriving DecidableEq

/-- A `Partial<PerformanceMetrics>` update: absent fields keep their value. -/
structure MetricsUpdate where
  fps : Option ℚ
  avgFrameTime : Option ℚ
  droppedFrames : Option ℚ
  uploadLatency : Option ℚ
  bandwidthUtilization : Option ℚ
  memoryPressure : Option ℚ

structure Band where
  good : ℚ
  fair : ℚ
  poor : ℚ

structure DropBand where
  acceptable : ℚ
  concerning : ℚ
  critical : ℚ

def fpsThresholds : Band := ⟨45, 25, 15⟩

def frameTimeThresholds : Band := ⟨22, 40, 67⟩

def droppedFramesThresholds : DropBand := ⟨5, 15, 30⟩

def uploadLatencyThresholds : Band := ⟨50, 150, 300⟩

def steadyStateFramesThreshold : Nat := 60

def qualityLevels : List QualitySettings :=
  [ ⟨2, 1, some ("Full quality")⟩
  , ⟨1, 1, some ("Reduced precision")⟩
  , ⟨0, 1, some ("Low precision")⟩
  , ⟨0, 2, some ("Low precision + downsampling")⟩ ]

structure QCState where
  currentSettings : QualitySettings
  baselineSettings : QualitySettings
  metrics : PerformanceMetrics
  degradationLevel : Nat
  steadyStateFrames : Nat
  sentMessages : List (String × Nat)
  deriving DecidableEq

def initialQC : QCState :=
  { currentSettings := ⟨2, 1, none⟩
    baselineSettings := ⟨2, 1, none⟩
    metrics := ⟨60, 1667/100, 0, 0, 0, 0⟩
    degradationLevel := 0
    steadyStateFrames := 0
    sentMessages := [] }

def updateMetrics (st : QCState) (u : MetricsUpdate) : QCState :=
  { st with metrics :=
      { fps := u.fps.getD st.metrics.fps
        avgFrameTime := u.avgFrameTime.getD st.metrics.avgFrameTime
        droppedFrames := u.droppedFrames.getD st.metrics.droppedFrames
        uploadLatency := u.uploadLatency.getD st.metrics.uploadLatency
        bandwidthUtilization := u.bandwidthUtilization.getD st.metrics.bandwidthUtilization
        memoryPressure := u.memoryPressure.getD st.metrics.memoryPressure } }

/-- `calculatePerformanceScore`: each signal contributes 0 to 3, the
result is the mean over the four signals. -/
def calculatePerformanceScore (m : PerformanceMetrics) : ℚ :=
  let fpsScore : ℚ :=
    if m.fps < fpsThresholds.poor then 3
    else if m.fps < fpsThresholds.fair then 2
    else if m.fps < fpsThresholds.good then 1
    else 0
  let frameTimeScore : ℚ :=
    if m.avgFrameTime > frameTimeThresholds.poor then 3
    else if m.avgFrameTime > frameTimeThresholds.fair then 2
    else if m.avgFrameTime > frameTimeThresholds.good then 1
    else 0
  let droppedScore : ℚ :=
    if m.droppedFrames > droppedFramesThresholds.critical then 3
    else if m.droppedFrames > droppedFramesThresholds.concerning then 2
    else if m.droppedFrames > droppedFramesThresholds.acceptable then 1
    else 0
  let latencyScore : ℚ :=
    if m.uploadLatency > uploadLatencyThresholds.poor then 3
    else if m.uploadLatency > uploadLatencyThresholds.fair then 2
    else if m.uploadLatency > uploadLatencyThresholds.good then 1
    else 0
  (fpsScore + frameTimeScore + droppedScore + latencyScore) / 4

def getTargetDegradation (performanceScore : ℚ) : Nat :=
  if performanceScore ≥ 5/2 then 3
  else if performanceScore ≥ 3/2 then 2
  else if performanceScore ≥ 4/5 then 1
  else 0

def getDataTypeString (dtype : Nat) : String :=
  match dtype with
  | 0 => "u8"
  | 1 => "u16"
  | 2 => "f32"
  | 3 => "mulaw"
  | _ => "unknown"

def settingsChanged (current newSettings : QualitySettings) : Bool :=
  decide (current.dtype ≠ newSettings.dtype) || decide (current.downsample ≠ newSettings.downsample)

/-- `applyDegradation`: clamp the level, return early when unchanged,
otherwise record the new level and — only when dtype or downsample
actually differ — install the new settings and emit a quality message. -/
def applyDegradation (st : QCState) (level : Nat) : QCState :=
  let clampedLevel := max 0 (min level (qualityLevels.length - 1))
  if clampedLevel = st.degradationLevel then st
  else
    let st := { st with degradationLevel := clampedLevel }
    let newSettings :=
      if clampedLevel = 0 then st.baselineSettings
      else qualityLevels.getD clampedLevel st.currentSettings
    if settingsChanged st.currentSettings newSettings then
      { st with
        currentSettings := newSettings
        sentMessages := st.sentMessages ++
          [(getDataTypeString newSettings.dtype, newSettings.downsample)] }
    else st

/-- `evaluatePerformance`: degrade immediately, upgrade only after the
steady-state counter crosses the threshold, saturate the counter at 10
when stable. -/
def evaluatePerformance (st : QCState) : QCState :=
  let performanceScore := calculatePerformanceScore st.metrics
  let targetDegradation := getTargetDegradation performanceScore
  if targetDegradation > st.degradationLevel then
    let st := applyDegradation st targetDegradation
    { st with steadyStateFrames := 0 }
  else if targetDegradation < st.degradationLevel then
    let st := { st with steadyStateFrames := st.steadyStateFrames + 1 }
    if st.steadyStateFrames ≥ steadyStateFramesThreshold then
      let st := applyDegradation st targetDegradation
      { st with steadyStateFrames := 0 }
    else st
  else
    { st with steadyStateFrames := min (st.steadyStateFrames + 1) 10 }

def evaluateTicks (st : QCState) : Nat → QCState
  | 0 => st
  | n+1 => evaluatePerformance (evaluateTicks st n)

/-! ## Concrete inputs used by the scenario theorems -/

/-- A full frame the decoder accepts: 16×16, U8, no compression.  The
four bytes at offsets 24–27 are simultaneously the first payload bytes
and the bytes the header parse reads as `payloadBytes` (= 256). -/
def c3buf : List Nat :=
  [1, 0, 16, 0, 16, 0, 0, 0, 0, 0, 0, 0, 0, 0, 0, 0, 0, 0, 0, 0, 0, 1, 0, 0]
    ++ ([0, 1, 0, 0] ++ List.replicate 252 0)

def c3payload : List Nat := [0, 1, 0, 0] ++ List.replicate 252 0

def c3header : TileHeader := ⟨1, 0, 16, 16, 0, 0, 0, 0, 0, 256, 256⟩

/-- Exactly the 24 declared header bytes of a valid 16×16 U8 frame: every
validation step passes, then the read of `payloadBytes` at offset 24 is
out of range. -/
def c7truncatedBuf : List Nat :=
  [1, 0, 16, 0, 16, 0, 0, 0, 0, 0, 0, 0, 0, 0, 0, 0, 0, 0, 0, 0, 0, 1, 0, 0]

/-- A 256×256 U8 uncompressed header with `uncompressedBytes = payloadBytes = 65536`. -/
def c8goodBuf : List Nat :=
  [1, 0, 0, 1, 0, 1, 0, 0, 0, 0, 0, 0, 0, 0, 0, 0, 0, 0, 0, 0, 0, 0, 1, 0, 0, 0, 1, 0]

/-- The same 256×256 U8 uncompressed header but declaring `payloadBytes = 65535`. -/
def c8badBuf : List Nat :=
  [1, 0, 0, 1, 0, 1, 0, 0, 0, 0, 0, 0, 0, 0, 0, 0, 0, 0, 0, 0, 0, 0, 1, 0, 255, 255, 0, 0]

def c8goodHeader : TileHeader := ⟨1, 0, 256, 256, 0, 0, 0, 0, 0, 65536, 65536⟩

/-- The C6 scenario metrics: fps 10, avgFrameTime 100, droppedFrames 20,
uploadLatency 500. -/
def c6update : MetricsUpdate := ⟨some 10, some 100, some 20, some 500, none, none⟩

/-- A consistently good sample: fps 60, frame time 10 ms, no drops, 10 ms latency. -/
def goodUpdate : MetricsUpdate := ⟨some 60, some 10, some 0, some 10, none, none⟩

/-- The pool state after `k` submissions (none completing) into a fresh
pool with `E` effective workers and queue bound `M`, for `k ≤ E + M`:
the first `min k E` tasks are dispatched in order (task `i` on worker
`i - 1`), the rest queue up, and nothing has been dropped. -/
def poolStateAt (E M k : Nat) : PoolState :=
  { workers := List.range' 0 E
    availableWorkers := List.range' k (E - k)
    busyWorkers := List.range' 0 (min k E)
    taskQueue := (List.range' (E + 1) (k - E)).map mkSubmitTask
    pendingTasks := (List.range' 1 (min k E)).map (fun i => (i, mkSubmitTask i))
    nextTaskId := k + 1
    maxQueueSize := M
    stats := ⟨k, 0, 0, 0, min k E, 0⟩
    events := []
    dispatched := (List.range' 1 (min k E)).map (fun i => (i, i - 1)) }

/-! ## Frame decoder lemmas -/

lemma getU32_some_length {buf : List Nat} {i x : Nat} (h : getU32 buf i = some x) :
    i + 4 ≤ buf.length := by
  unfold getU32 at h
  split at h
  · next b0 b1 b2 b3 h0 h1 h2 h3 =>
    have := (List.get?_eq_some.mp h3).1
    omega
  · exact absurd h (by simp)

set_option maxHeartbeats 2000000 in
lemma parseHeader_ok_reads {buf : List Nat} {h : TileHeader}
    (hok : parseHeader buf = .ok h) :
    getU16 buf 2 = some h.tileW ∧ getU16 buf 4 = some h.tileH ∧
    getU8 buf 18 = some h.dtype ∧ getU8 buf 19 = some h.compression ∧
    getU32 buf 20 = some h.uncompressedBytes ∧ getU32 buf 24 = some h.payloadBytes ∧
    (h.compression = 0 → h.uncompressedBytes = h.payloadBytes) ∧
    h.uncompressedBytes = h.tileW * h.tileH * getBytesPerSample h.dtype := by
  unfold parseHeader at hok
  repeat' (split at hok)
  all_goals simp at hok
  subst hok
  simp_all

lemma success_iff (r : ParseResult) :
    r.success = true ↔ ∃ d, r = .ok d := by
  cases r <;> simp [ParseResult.success]

lemma parse_cases (st : ParserStats) (buf : List Nat) :
    (∃ d, parse st buf = ({st with frameCount := st.frameCount + 1}, .ok d)
        ∧ parseHeader buf = .ok d.header
        ∧ buf.length = TILE_HEADER_SIZE + d.header.payloadBytes)
    ∨ (∃ e, parse st buf =
        (recordDrop {st with frameCount := st.frameCount + 1} e, .err e buf.length)) := by
  unfold parse
  split
  · exact Or.inr ⟨_, rfl⟩
  split
  · exact Or.inr ⟨_, rfl⟩
  split
  · exact Or.inr ⟨_, rfl⟩
  dsimp only
  rename_i x hdr heq hlen
  rcases hv : validatePayload (List.take hdr.payloadBytes (List.drop TILE_HEADER_SIZE buf)) hdr
    with _ | e
  · simp only [hv]
    refine Or.inl ⟨_, rfl, heq, ?_⟩
    dsimp only
    omega
  · simp only [hv]
    exact Or.inr ⟨_, rfl⟩

lemma parse_shape (st : ParserStats) (buf : List Nat) :
    (∃ d, (parse st buf).2 = .ok d) ∨ (∃ e, (parse st buf).2 = .err e buf.length) := by
  rcases parse_cases st buf with ⟨d, h, -, -⟩ | ⟨e, h⟩
  · exact Or.inl ⟨d, by rw [h]⟩
  · exact Or.inr ⟨e, by rw [h]⟩

lemma parse_ok_inv {st : ParserStats} {buf : List Nat} {d : TileData}
    (h : (parse st buf).2 = .ok d) :
    parseHeader buf = .ok d.header ∧
    buf.length = TILE_HEADER_SIZE + d.header.payloadBytes := by
  rcases parse_cases st buf with ⟨d', hp, hh, hl⟩ | ⟨e, hp⟩
  · rw [hp] at h
    simp at h
    subst h
    exact ⟨hh, hl⟩
  · rw [hp] at h
    simp at h

lemma parse_frameCount (st : ParserStats) (buf : List Nat) :
    (parse st buf).1.frameCount = st.frameCount + 1 := by
  rcases parse_cases st buf with ⟨d, hp, -, -⟩ | ⟨e, hp⟩ <;> (rw [hp]; try simp [recordDrop])

lemma parse_dropped (st : ParserStats) (buf : List Nat) :
    (parse st buf).1.droppedFrames =
      st.droppedFrames + (if ((parse st buf).2).success then 0 else 1) := by
  rcases parse_cases st buf with ⟨d, hp, -, -⟩ | ⟨e, hp⟩ <;> rw [hp] <;>
    simp [recordDrop, ParseResult.success]

lemma reachable_dropped_le {st : ParserStats} (h : ReachableStats st) :
    st.droppedFrames ≤ st.frameCount := by
  induction h with
  | init => simp [initialParserStats]
  | step st buf _hst ih =>
    have h1 := parse_frameCount st buf
    have h2 := parse_dropped st buf
    cases hs : ((parse st buf).2).success <;> (rw [hs] at h2; simp at h2; omega)
  | reset st _hst _ih => simp [resetStats, initialParserStats]

/-! ## Claim theorems for the frame decoder -/

/-- Claim C3 (code bug): the header is documented as a fixed 24-byte
block with the payload at bytes 24 onwards, but the parser reads the
`payloadBytes` field from bytes 24–27: `c3buf` is accepted, its header's
`payloadBytes` comes from `getU32` at offset 24, the returned payload's
first four bytes are that very field, and parsing just the 24 declared
header bytes fails with `corruptedHeader` because the eleventh field
lies beyond them. -/
theorem C3_header_layout_eval :
    (parse initialParserStats c3buf).2 = .ok ⟨c3header, c3payload⟩
    ∧ c3header.payloadBytes = 256
    ∧ c3payload.take 4 = [0, 1, 0, 0]
    ∧ getU32 c3buf 24 = some c3header.payloadBytes
    ∧ parseHeader (c3buf.take TILE_HEADER_SIZE) = .error .corruptedHeader := by
  refine ⟨by decide, rfl, by decide, by decide, by rfl⟩

/-- Claim C7 (confirmed): `parse` is total — every call returns either a
success with data or an error result carrying the dropped byte count; a
buffer shorter than 24 bytes yields exactly the `bufferTooShort` result,
and for such buffers the outcome depends on the length alone (no byte is
read); a buffer whose length lies in [24, 28) can never be accepted —
the read of the size field at offset 24 raises, and that internal
exception surfaces as `corruptedHeader`, as on `c7truncatedBuf`. -/
theorem C7_decode_total :
    (∀ (st : ParserStats) (buf : List Nat),
      (∃ d, (parse st buf).2 = .ok d) ∨ (∃ e, (parse st buf).2 = .err e buf.length))
    ∧ (∀ (st : ParserStats) (buf : List Nat), buf.length < TILE_HEADER_SIZE →
        (parse st buf).2 = .err .bufferTooShort buf.length)
    ∧ (∀ (st : ParserStats) (b1 b2 : List Nat), b1.length < TILE_HEADER_SIZE →
        b1.length = b2.length → parse st b1 = parse st b2)
    ∧ (∀ (st : ParserStats) (buf : List Nat), TILE_HEADER_SIZE ≤ buf.length →
        buf.length < 28 → ((parse st buf).2).success = false)
    ∧ (parse initialParserStats c7truncatedBuf).2 = .err .corruptedHeader 24 := by
  refine ⟨parse_shape, ?_, ?_, ?_, by decide⟩
  · intro st buf h
    simp [parse, h]
  · intro st b1 b2 h1 hlen
    have h2 : b2.length < TILE_HEADER_SIZE := hlen ▸ h1
    simp [parse, h1, h2, hlen]
  · intro st buf h24 h28
    refine Bool.eq_false_iff.mpr fun hs => ?_
    obtain ⟨d, hd⟩ := (success_iff _).mp hs
    obtain ⟨hh, hlen⟩ := parse_ok_inv hd
    have hreads := parseHeader_ok_reads hh
    have := getU32_some_length hreads.2.2.2.2.2.1
    omega

/-- Witness for C7: concrete instances of the universally quantified
conjuncts. -/
theorem C7_decode_total_witness :
    (parse initialParserStats [9]).2 = .err .bufferTooShort 1
    ∧ parse initialParserStats [1, 2, 3] = parse initialParserStats [4, 5, 6]
    ∧ ((parse initialParserStats (List.replicate 25 0)).2).success = false :=
  ⟨C7_decode_total.2.1 initialParserStats [9] (by decide),
   C7_decode_total.2.2.1 initialParserStats [1, 2, 3] [4, 5, 6] (by decide) rfl,
   C7_decode_total.2.2.2.1 initialParserStats (List.replicate 25 0) (by decide) (by decide)⟩

/-- Claim C8 (confirmed): any accepted header for a 256×256 U8 tile with
compression `None` necessarily declares `payloadBytes = uncompressedBytes
= 65536`, and the same header declaring `payloadBytes = 65535` is
rejected with `uncompressedSizeMismatch`. -/
theorem C8_size_checks :
    (∀ (buf : List Nat) (h : TileHeader), parseHeader buf = .ok h →
      h.tileW = 256 → h.tileH = 256 → h.dtype = 0 → h.compression = 0 →
      h.payloadBytes = 65536 ∧ h.uncompressedBytes = 65536)
    ∧ parseHeader c8badBuf = .error .uncompressedSizeMismatch := by
  constructor
  · intro buf h hok hW hH hD hC
    obtain ⟨-, -, -, -, -, -, hnone, hsize⟩ := parseHeader_ok_reads hok
    rw [hW, hH, hD] at hsize
    have hu : h.uncompressedBytes = 65536 := by
      simpa [getBytesPerSample] using hsize
    exact ⟨by rw [← hnone hC, hu], hu⟩
  · rfl

/-- Witness for C8: the valid 256×256 U8 uncompressed header is accepted
and the theorem pins its sizes to 65536. -/
theorem C8_size_checks_witness :
    parseHeader c8goodBuf = .ok c8goodHeader
    ∧ c8goodHeader.payloadBytes = 65536 ∧ c8goodHeader.uncompressedBytes = 65536 :=
  ⟨by rfl,
   C8_size_checks.1 c8goodBuf c8goodHeader (by rfl) rfl rfl rfl rfl⟩

/-- Claim C10 (confirmed, implicit invariant): every `parse` call
increments `totalFrames` by exactly one; `droppedFrames` increments by
one exactly when the result is a failure; on every reachable state
`droppedFrames ≤ totalFrames`, the reported `successRate` equals
`(totalFrames - droppedFrames) / totalFrames`, lies in [0, 1], and is 1
when no frame has been seen. -/
theorem C10_stats_invariant :
    (∀ (st : ParserStats) (buf : List Nat),
      (parse st buf).1.frameCount = st.frameCount + 1)
    ∧ (∀ (st : ParserStats) (buf : List Nat),
        (parse st buf).1.droppedFrames =
          st.droppedFrames + (if ((parse st buf).2).success then 0 else 1))
    ∧ (∀ st : ParserStats, ReachableStats st → st.droppedFrames ≤ st.frameCount)
    ∧ (∀ st : ParserStats, ReachableStats st →
        0 ≤ (getStats st).successRate ∧ (getStats st).successRate ≤ 1)
    ∧ (∀ st : ParserStats, st.frameCount = 0 → (getStats st).successRate = 1)
    ∧ (∀ st : ParserStats, 0 < st.frameCount →
        (getStats st).successRate = ((st.frameCount : ℚ) - st.droppedFrames) / st.frameCount) := by
  refine ⟨parse_frameCount, parse_dropped, fun st h => reachable_dropped_le h, ?_, ?_, ?_⟩
  · intro st hst
    have hle := reachable_dropped_le hst
    unfold getStats
    rcases Nat.eq_zero_or_pos st.frameCount with h0 | hpos
    · simp [h0]
    · have hfc : (0 : ℚ) < st.frameCount := by exact_mod_cast hpos
      have hdf : (st.droppedFrames : ℚ) ≤ st.frameCount := by exact_mod_cast hle
      rw [if_pos hpos]
      constructor
      · apply div_nonneg _ (le_of_lt hfc)
        linarith
      · rw [div_le_one hfc]
        have : (0 : ℚ) ≤ st.droppedFrames := by positivity
        linarith
  · intro st h0
    simp [getStats, h0]
  · intro st hpos
    simp [getStats, hpos]

/-- Witness for C10: the invariant instantiated on the initial state and
one concrete parse step. -/
theorem C10_stats_invariant_witness :
    (parse initialParserStats []).1.frameCount = 1
    ∧ initialParserStats.droppedFrames ≤ initialParserStats.frameCount
    ∧ (getStats initialParserStats).successRate = 1 :=
  ⟨by simpa [initialParserStats] using C10_stats_invariant.1 initialParserStats [],
   C10_stats_invariant.2.2.1 initialParserStats ReachableStats.init,
   C10_stats_invariant.2.2.2.2.1 initialParserStats rfl⟩

/-! ## Claim theorems for the decompression pool -/

/-- Claim C2 (code bug): with two busy workers — task 1 dispatched to
worker 0 and task 2 to worker 1 — a fault of worker 0 rejects BOTH
pending tasks, because `handleWorkerError` tests
`busyWorkers.has(worker)` instead of matching tasks to the faulted
worker.  The faulted worker itself is correctly withheld from the
available list. -/
theorem C2_worker_fault_eval :
    (submitN (mkPool 2 10 2) 2).dispatched = [(1, 0), (2, 1)]
    ∧ (handleWorkerError (submitN (mkPool 2 10 2) 2) 0 ("boom")).events =
        [(1, TaskOutcome.workerFault ("boom")), (2, TaskOutcome.workerFault ("boom"))]
    ∧ (handleWorkerError (submitN (mkPool 2 10 2) 2) 0 ("boom")).pendingTasks = []
    ∧ (handleWorkerError (submitN (mkPool 2 10 2) 2) 0 ("boom")).availableWorkers = []
    ∧ (handleWorkerError (submitN (mkPool 2 10 2) 2) 0 ("boom")).busyWorkers = [1] := by
  refine ⟨by decide, by decide, by decide, by decide, by decide⟩

/-- Claim C9 (confirmed): disposal rejects every pending task and then
every queued task with a disposal outcome, clears the workers and all
collections, leaves `totalTasks` and `completedTasks` untouched, and is
idempotent.  With 3 queued and 2 in-flight tasks all 5 are rejected. -/
theorem C9_dispose_rejects_all :
    (∀ st : PoolState,
      (dispose st).events = st.events
          ++ st.pendingTasks.map (fun p => (p.1, TaskOutcome.disposed))
          ++ st.taskQueue.map (fun t => (t.id, TaskOutcome.disposed))
      ∧ (dispose st).workers = [] ∧ (dispose st).availableWorkers = []
      ∧ (dispose st).busyWorkers = [] ∧ (dispose st).taskQueue = []
      ∧ (dispose st).pendingTasks = []
      ∧ (dispose st).stats.totalTasks = st.stats.totalTasks
      ∧ (dispose st).stats.completedTasks = st.stats.completedTasks
      ∧ dispose (dispose st) = dispose st)
    ∧ ((dispose (submitN (mkPool 2 10 2) 5)).events =
        [(1, .disposed), (2, .disposed), (3, .disposed), (4, .disposed), (5, .disposed)]
      ∧ (submitN (mkPool 2 10 2) 5).pendingTasks.length = 2
      ∧ (submitN (mkPool 2 10 2) 5).taskQueue.length = 3
      ∧ (dispose (submitN (mkPool 2 10 2) 5)).stats.totalTasks = 5
      ∧ (dispose (submitN (mkPool 2 10 2) 5)).stats.completedTasks = 0) := by
  constructor
  · intro st
    refine ⟨rfl, rfl, rfl, rfl, rfl, rfl, rfl, rfl, ?_⟩
    simp [dispose]
  · refine ⟨by decide, by decide, by decide, by decide, by decide⟩

lemma processNextTask_totalTasks (st : PoolState) :
    (processNextTask st).stats.totalTasks = st.stats.totalTasks := by
  unfold processNextTask updateStats
  split <;> rfl

lemma decompress_totalTasks (st : PoolState) (data : List Nat) (c u : Nat) (hc : c ≠ 0) :
    (decompress st data c u).1.stats.totalTasks = st.stats.totalTasks + 1 := by
  unfold decompress
  rw [if_neg hc]
  dsimp only
  rw [processNextTask_totalTasks]
  dsimp only
  split
  · split <;> rfl
  · rfl

/-- Claim C4, counterexample: a `None` payload submitted through
`TileDecompressor.decompress` is returned synchronously with the pool
state untouched — `totalTasks` does not increment. -/
theorem C4_none_bypass_counterexample :
    tileDecompressorDecompress (mkPool 4 50 4) [5] 0 3 = (mkPool 4 50 4, .immediate [5])
    ∧ (tileDecompressorDecompress (mkPool 4 50 4) [5] 0 3).1.stats.totalTasks = 0
    ∧ (tileDecompressorDecompress (mkPool 4 50 4) [5] 0 3).1.stats.totalTasks ≠
        (mkPool 4 50 4).stats.totalTasks + 1 := by
  refine ⟨rfl, rfl, by decide⟩

/-- Claim C4 (amended): only payloads with a real compression kind pass
through the stat-tracked pool path, each such call incrementing
`totalTasks` by exactly one; identity (`None`) payloads are resolved
synchronously with the pool state unchanged. -/
theorem C4_stat_path_amended :
    (∀ (st : PoolState) (data : List Nat) (c u : Nat), c ≠ 0 →
      (tileDecompressorDecompress st data c u).1.stats.totalTasks = st.stats.totalTasks + 1)
    ∧ (∀ (st : PoolState) (data : List Nat) (c u : Nat), c = 0 →
      tileDecompressorDecompress st data c u = (st, .immediate data)) := by
  constructor
  · intro st data c u hc
    exact decompress_totalTasks st data c u hc
  · intro st data c u hc
    subst hc
    rfl

/-- Witness for C4: a compressed submission increments `totalTasks`, a
`None` submission returns immediately. -/
theorem C4_stat_path_amended_witness :
    (tileDecompressorDecompress (mkPool 4 50 4) [7] 1 9).1.stats.totalTasks =
        (mkPool 4 50 4).stats.totalTasks + 1
    ∧ tileDecompressorDecompress (mkPool 4 50 4) [7] 0 9 = (mkPool 4 50 4, .immediate [7]) :=
  ⟨C4_stat_path_amended.1 (mkPool 4 50 4) [7] 1 9 (by decide),
   C4_stat_path_amended.2 (mkPool 4 50 4) [7] 0 9 rfl⟩

lemma range'_concat_one (s k : Nat) : List.range' s (k + 1) = List.range' s k ++ [s + k] := by
  simpa using @List.range'_concat 1 s k

lemma contains_range'_self (k : Nat) : (List.range' 0 k).contains k = false := by
  simp [List.contains_eq_any_beq, List.mem_range'_1]

lemma addToSet_range' (k : Nat) : addToSet (List.range' 0 k) k = List.range' 0 (k + 1) := by
  rw [addToSet, contains_range'_self]
  simpa using (range'_concat_one 0 k).symm

lemma decompress_dispatch (E M k : Nat) (hM : 1 ≤ M) (hkE : k < E) :
    (decompress (poolStateAt E M k) [0] 1 0).1 = poolStateAt E M (k + 1) := by
  have hk0 : k - E = 0 := by omega
  have hk1 : (k + 1) - E = 0 := by omega
  have hminK : min k E = k := Nat.min_eq_left (le_of_lt hkE)
  have hminK1 : min (k + 1) E = k + 1 := Nat.min_eq_left hkE
  have hsub : E - k = (E - (k + 1)) + 1 := by omega
  have hcons : List.range' k (E - k) = k :: List.range' (k + 1) (E - (k + 1)) := by
    rw [hsub, List.range'_succ]
  have hrange1 : List.range' 1 (k + 1) = List.range' 1 k ++ [k + 1] := by
    simpa [Nat.add_comm] using range'_concat_one 1 k
  have hM0 : ¬ (0 ≥ M) := by omega
  unfold decompress processNextTask updateStats poolStateAt
  simp only [hk0, hk1, hminK, hminK1, List.range'_zero, List.map_nil, List.length_nil,
    List.nil_append, hcons, hrange1, List.map_append, List.map_cons, addToSet_range',
    List.length_cons, if_neg hM0]
  simp [List.length_range', Nat.add_sub_cancel, mkSubmitTask]

/-- The pool state right after the first backpressure drop: oldest
queued task `E + 1` evicted and rejected, the new task `E + M + 1` at
the tail of the queue, `droppedTasks` at 1. -/
def poolStateDropped (E M : Nat) : PoolState :=
  { workers := List.range' 0 E
    availableWorkers := []
    busyWorkers := List.range' 0 E
    taskQueue := (List.range' (E + 2) M).map mkSubmitTask
    pendingTasks := (List.range' 1 E).map (fun i => (i, mkSubmitTask i))
    nextTaskId := E + M + 2
    maxQueueSize := M
    stats := ⟨E + M + 1, 0, 0, 0, E, 1⟩
    events := [(E + 1, TaskOutcome.droppedBackpressure)]
    dispatched := (List.range' 1 E).map (fun i => (i, i - 1)) }

lemma processNextTask_no_worker (st : PoolState) (h : st.availableWorkers = []) :
    processNextTask st = st := by
  unfold processNextTask
  split
  · next t qr w ar heq1 heq2 =>
    rw [h] at heq2
    exact absurd heq2 (by simp)
  · rfl

lemma map_range'_snoc {α : Type} (f : Nat → α) (s n : Nat) :
    (List.range' s (n + 1)).map f = (List.range' s n).map f ++ [f (s + n)] := by
  rw [range'_concat_one, List.map_append, List.map_singleton]

lemma decompress_enqueue (E M n : Nat) (hnM : n < M) :
    (decompress (poolStateAt E M (E + n)) [0] 1 0).1 = poolStateAt E M (E + n + 1) := by
  have hminK : min (E + n) E = E := Nat.min_eq_right (Nat.le_add_right E n)
  have hminK1 : min (E + n + 1) E = E := Nat.min_eq_right (by omega)
  have havail : E - (E + n) = 0 := by omega
  have havail1 : E - (E + n + 1) = 0 := by omega
  have hsub : E + n - E = n := by omega
  have hsub1 : E + n + 1 - E = n + 1 := by omega
  have hq2 : E + 1 + n = E + n + 1 := by omega
  have h10 : ¬ ((1 : Nat) = 0) := by decide
  have hcond : ¬ ((poolStateAt E M (E + n)).taskQueue.length ≥
      (poolStateAt E M (E + n)).maxQueueSize) := by
    simp only [poolStateAt, List.length_map, List.length_range', hsub]
    omega
  unfold decompress
  rw [if_neg h10]
  dsimp only
  rw [if_neg hcond]
  rw [processNextTask_no_worker _ (by simp [poolStateAt, havail])]
  simp [poolStateAt, hminK, hminK1, havail, havail1, hsub, hsub1, map_range'_snoc,
    hq2, mkSubmitTask]

lemma decompress_drop (E M : Nat) (hM : 1 ≤ M) :
    (decompress (poolStateAt E M (E + M)) [0] 1 0).1 = poolStateDropped E M := by
  obtain ⟨m, rfl⟩ : ∃ m, M = m + 1 := ⟨M - 1, by omega⟩
  have hminK : min (E + (m + 1)) E = E := Nat.min_eq_right (by omega)
  have havail : E - (E + (m + 1)) = 0 := by omega
  have hsub : E + (m + 1) - E = m + 1 := by omega
  have hq2 : E + 2 + m = E + (m + 1) + 1 := by omega
  have h10 : ¬ ((1 : Nat) = 0) := by decide
  have hcond : (poolStateAt E (m + 1) (E + (m + 1))).taskQueue.length ≥
      (poolStateAt E (m + 1) (E + (m + 1))).maxQueueSize := by
    simp only [poolStateAt, List.length_map, List.length_range', hsub]
    omega
  unfold decompress
  rw [if_neg h10]
  dsimp only
  rw [if_pos hcond]
  have hqcons : (poolStateAt E (m + 1) (E + (m + 1))).taskQueue =
      mkSubmitTask (E + 1) :: (List.range' (E + 2) m).map mkSubmitTask := by
    simp [poolStateAt, hsub, List.range'_succ]
  rw [hqcons]
  dsimp only
  rw [processNextTask_no_worker _ (by simp [poolStateAt, havail])]
  simp [poolStateAt, poolStateDropped, hminK, havail, hsub, map_range'_snoc, hq2,
    mkSubmitTask]

lemma submitN_char (P M hw k : Nat) (hM : 1 ≤ M)
    (hk : k ≤ effectivePoolSize P hw + M) :
    submitN (mkPool P M hw) k = poolStateAt (effectivePoolSize P hw) M k := by
  induction k with
  | zero =>
    simp [submitN, mkPool, poolStateAt, List.range_eq_range']
  | succ k ih =>
    rw [submitN, ih (by omega)]
    rcases Nat.lt_or_ge k (effectivePoolSize P hw) with h | h
    · exact decompress_dispatch (effectivePoolSize P hw) M k hM h
    · obtain ⟨n, rfl⟩ : ∃ n, k = effectivePoolSize P hw + n :=
        ⟨k - effectivePoolSize P hw, by omega⟩
      exact decompress_enqueue (effectivePoolSize P hw) M n (by omega)

/-- Claim C1, counterexample: with the default 4 workers and
`maxQueueSize = 2`, submitting `maxQueueSize + 1 = 3` tasks before any
completes causes NO drop at all — the first 4 submissions are dispatched
straight to idle workers and never sit in the queue, so `droppedTasks`
stays 0 and no task is rejected. -/
theorem C1_backpressure_counterexample :
    (submitN (mkPool 4 2 4) 3).stats.droppedTasks = 0
    ∧ (submitN (mkPool 4 2 4) 3).events = []
    ∧ (submitN (mkPool 4 2 4) 3).stats.totalTasks = 3 := by
  refine ⟨by decide, by decide, by decide⟩

/-- Claim C1 (amended): submitting `poolSize + maxQueueSize + 1` tasks
before any completes (poolSize = effective worker count) causes exactly
one drop: after `poolSize + maxQueueSize` submissions nothing has been
dropped and the queue holds tasks `poolSize+1 .. poolSize+maxQueueSize`;
the next submission evicts exactly the oldest queued task `poolSize+1`,
rejecting it with the backpressure failure before the new task is
enqueued, and `droppedTasks` rises from 0 to exactly 1 while the new
task `poolSize+maxQueueSize+1` ends up at the queue tail. -/
theorem C1_backpressure_amended (P M hw : Nat) (hM : 1 ≤ M) :
    (submitN (mkPool P M hw) (effectivePoolSize P hw + M)).stats.droppedTasks = 0
    ∧ (submitN (mkPool P M hw) (effectivePoolSize P hw + M)).events = []
    ∧ (submitN (mkPool P M hw) (effectivePoolSize P hw + M)).taskQueue.map Task.id
        = List.range' (effectivePoolSize P hw + 1) M
    ∧ (submitN (mkPool P M hw) (effectivePoolSize P hw + M + 1)).stats.droppedTasks = 1
    ∧ (submitN (mkPool P M hw) (effectivePoolSize P hw + M + 1)).events
        = [(effectivePoolSize P hw + 1, TaskOutcome.droppedBackpressure)]
    ∧ (submitN (mkPool P M hw) (effectivePoolSize P hw + M + 1)).taskQueue.map Task.id
        = List.range' (effectivePoolSize P hw + 2) M
    ∧ (submitN (mkPool P M hw) (effectivePoolSize P hw + M + 1)).stats.totalTasks
        = effectivePoolSize P hw + M + 1 := by
  have hc := submitN_char P M hw (effectivePoolSize P hw + M) hM le_rfl
  have hfin : submitN (mkPool P M hw) (effectivePoolSize P hw + M + 1)
      = poolStateDropped (effectivePoolSize P hw) M := by
    rw [submitN, hc, decompress_drop (effectivePoolSize P hw) M hM]
  refine ⟨by rw [hc]; rfl, by rw [hc]; rfl, ?_, by rw [hfin]; rfl, by rw [hfin]; rfl, ?_, ?_⟩
  · rw [hc]
    have hx : effectivePoolSize P hw + M - effectivePoolSize P hw = M := by omega
    have hf : Task.id ∘ mkSubmitTask = id := rfl
    simp only [poolStateAt, List.map_map, hx, hf, List.map_id]
  · rw [hfin]
    have hf : Task.id ∘ mkSubmitTask = id := rfl
    simp only [poolStateDropped, List.map_map, hf, List.map_id]
  · rw [hfin]
    rfl

/-- Witness for C1: the amended statement at the default pool size 4
with `maxQueueSize = 2`: 6 submissions cause no drop, the 7th drops
exactly task 5 (the oldest queued). -/
theorem C1_backpressure_amended_witness :
    (submitN (mkPool 4 2 4) 6).stats.droppedTasks = 0
    ∧ (submitN (mkPool 4 2 4) 7).stats.droppedTasks = 1
    ∧ (submitN (mkPool 4 2 4) 7).events = [(5, TaskOutcome.droppedBackpressure)]
    ∧ (submitN (mkPool 4 2 4) 7).taskQueue.map Task.id = [6, 7] := by
  have h := C1_backpressure_amended 4 2 4 (by decide)
  refine ⟨?_, ?_, ?_, ?_⟩
  · simpa [effectivePoolSize] using h.1
  · simpa [effectivePoolSize] using h.2.2.2.1
  · simpa [effectivePoolSize] using h.2.2.2.2.1
  · simpa [effectivePoolSize] using h.2.2.2.2.2.1

/-! ## Claim theorems for the adaptive quality controller -/

lemma getTarget_le (q : ℚ) : getTargetDegradation q ≤ 3 := by
  unfold getTargetDegradation
  split_ifs <;> omega

lemma applyDegradation_level (st : QCState) (level : Nat) (hle : level ≤ 3) :
    (applyDegradation st level).degradationLevel =
      if level = st.degradationLevel then st.degradationLevel else level := by
  unfold applyDegradation
  have hlen : qualityLevels.length = 4 := rfl
  rw [hlen]
  have hcl : max 0 (min level (4 - 1)) = level := by omega
  rw [hcl]
  split
  · next h => simp [h]
  · next h =>
    rw [if_neg h]
    dsimp only
    split <;> split <;> rfl

lemma evaluate_degrade (st : QCState)
    (h : getTargetDegradation (calculatePerformanceScore st.metrics) > st.degradationLevel) :
    (evaluatePerformance st).degradationLevel
        = getTargetDegradation (calculatePerformanceScore st.metrics)
    ∧ (evaluatePerformance st).steadyStateFrames = 0 := by
  unfold evaluatePerformance
  rw [if_pos h]
  dsimp only
  rw [applyDegradation_level _ _ (getTarget_le _)]
  rw [if_neg (by omega)]
  exact ⟨rfl, rfl⟩

lemma evaluate_improve_wait (st : QCState)
    (h : getTargetDegradation (calculatePerformanceScore st.metrics) < st.degradationLevel)
    (hcnt : st.steadyStateFrames + 1 < steadyStateFramesThreshold) :
    evaluatePerformance st = {st with steadyStateFrames := st.steadyStateFrames + 1} := by
  unfold evaluatePerformance
  rw [if_neg (by omega), if_pos h]
  dsimp only
  rw [if_neg (by omega)]

lemma evaluate_improve_apply (st : QCState)
    (h : getTargetDegradation (calculatePerformanceScore st.metrics) < st.degradationLevel)
    (hcnt : steadyStateFramesThreshold ≤ st.steadyStateFrames + 1) :
    (evaluatePerformance st).degradationLevel
        = getTargetDegradation (calculatePerformanceScore st.metrics)
    ∧ (evaluatePerformance st).steadyStateFrames = 0 := by
  unfold evaluatePerformance
  rw [if_neg (by omega), if_pos h]
  dsimp only
  rw [if_pos (by omega)]
  dsimp only
  rw [applyDegradation_level _ _ (getTarget_le _)]
  rw [if_neg (by dsimp only; omega)]
  exact ⟨rfl, rfl⟩

lemma evaluateTicks_wait (st : QCState)
    (h : getTargetDegradation (calculatePerformanceScore st.metrics) < st.degradationLevel) :
    ∀ j : Nat, st.steadyStateFrames + j + 1 ≤ steadyStateFramesThreshold →
      evaluateTicks st j = {st with steadyStateFrames := st.steadyStateFrames + j} := by
  intro j
  induction j with
  | zero =>
    intro _
    simp [evaluateTicks]
  | succ j ih =>
    intro hj
    have hc : ({st with steadyStateFrames := st.steadyStateFrames + j} :
        QCState).steadyStateFrames + 1 < steadyStateFramesThreshold := by
      dsimp only
      omega
    have hw := evaluate_improve_wait {st with steadyStateFrames := st.steadyStateFrames + j} h hc
    rw [evaluateTicks, ih (by omega), hw]
    dsimp only
    rfl

set_option maxRecDepth 100000 in
set_option maxHeartbeats 4000000 in
/-- Claim C5 (confirmed): when the target level is better (lower) than
the current one and the incremented steady-state counter is still below
the 60-tick threshold, the tick only increments the counter — level and
settings are untouched; once the counter reaches the threshold the
improvement is applied and the counter resets to 0.  Concretely: 5 poor
ticks pin the level at 3; one good sample leaves it at 3 (counter 5);
even after 55 good ticks it is still 3, and on the 56th (counter hits
60) it finally improves, with the counter reset to 0. -/
theorem C5_hysteresis :
    (∀ st : QCState,
      getTargetDegradation (calculatePerformanceScore st.metrics) < st.degradationLevel →
      st.steadyStateFrames + 1 < steadyStateFramesThreshold →
      evaluatePerformance st = {st with steadyStateFrames := st.steadyStateFrames + 1})
    ∧ (∀ st : QCState,
      getTargetDegradation (calculatePerformanceScore st.metrics) < st.degradationLevel →
      steadyStateFramesThreshold ≤ st.steadyStateFrames + 1 →
      (evaluatePerformance st).degradationLevel
          = getTargetDegradation (calculatePerformanceScore st.metrics)
      ∧ (evaluatePerformance st).steadyStateFrames = 0)
    ∧ ((evaluateTicks (updateMetrics initialQC c6update) 5).degradationLevel = 3
      ∧ (evaluatePerformance (updateMetrics
          (evaluateTicks (updateMetrics initialQC c6update) 5) goodUpdate)).degradationLevel = 3
      ∧ (evaluatePerformance (updateMetrics
          (evaluateTicks (updateMetrics initialQC c6update) 5) goodUpdate)).steadyStateFrames = 5
      ∧ (evaluateTicks (updateMetrics
          (evaluateTicks (updateMetrics initialQC c6update) 5) goodUpdate) 55).degradationLevel = 3
      ∧ (evaluateTicks (updateMetrics
          (evaluateTicks (updateMetrics initialQC c6update) 5) goodUpdate) 56).degradationLevel = 0
      ∧ (evaluateTicks (updateMetrics
          (evaluateTicks (updateMetrics initialQC c6update) 5) goodUpdate) 56).steadyStateFrames = 0) := by
  have h5L : (evaluateTicks (updateMetrics initialQC c6update) 5).degradationLevel = 3 := by
    norm_num [evaluateTicks, evaluatePerformance, applyDegradation, calculatePerformanceScore,
      getTargetDegradation, updateMetrics, initialQC, c6update, goodUpdate, qualityLevels,
      settingsChanged, getDataTypeString, steadyStateFramesThreshold, fpsThresholds,
      frameTimeThresholds, droppedFramesThresholds, uploadLatencyThresholds]
  have h5S : (evaluateTicks (updateMetrics initialQC c6update) 5).steadyStateFrames = 4 := by
    norm_num [evaluateTicks, evaluatePerformance, applyDegradation, calculatePerformanceScore,
      getTargetDegradation, updateMetrics, initialQC, c6update, goodUpdate, qualityLevels,
      settingsChanged, getDataTypeString, steadyStateFramesThreshold, fpsThresholds,
      frameTimeThresholds, droppedFramesThresholds, uploadLatencyThresholds]
  have hT : getTargetDegradation (calculatePerformanceScore
      (updateMetrics (evaluateTicks (updateMetrics initialQC c6update) 5)
        goodUpdate).metrics) = 0 := by
    norm_num [evaluateTicks, evaluatePerformance, applyDegradation, calculatePerformanceScore,
      getTargetDegradation, updateMetrics, initialQC, c6update, goodUpdate, qualityLevels,
      settingsChanged, getDataTypeString, steadyStateFramesThreshold, fpsThresholds,
      frameTimeThresholds, droppedFramesThresholds, uploadLatencyThresholds]
  have hGL : (updateMetrics (evaluateTicks (updateMetrics initialQC c6update) 5)
      goodUpdate).degradationLevel = 3 := h5L
  have hGS : (updateMetrics (evaluateTicks (updateMetrics initialQC c6update) 5)
      goodUpdate).steadyStateFrames = 4 := h5S
  have hlt : getTargetDegradation (calculatePerformanceScore
      (updateMetrics (evaluateTicks (updateMetrics initialQC c6update) 5) goodUpdate).metrics)
      < (updateMetrics (evaluateTicks (updateMetrics initialQC c6update) 5)
        goodUpdate).degradationLevel := by
    rw [hT, hGL]
    omega
  have h55 := evaluateTicks_wait
    (updateMetrics (evaluateTicks (updateMetrics initialQC c6update) 5) goodUpdate) hlt 55
    (by rw [hGS]; norm_num [steadyStateFramesThreshold])
  have h56 : evaluateTicks
      (updateMetrics (evaluateTicks (updateMetrics initialQC c6update) 5) goodUpdate) 56
      = evaluatePerformance (evaluateTicks
        (updateMetrics (evaluateTicks (updateMetrics initialQC c6update) 5) goodUpdate) 55) :=
    rfl
  have happ := evaluate_improve_apply
    {updateMetrics (evaluateTicks (updateMetrics initialQC c6update) 5) goodUpdate with
      steadyStateFrames := (updateMetrics (evaluateTicks (updateMetrics initialQC c6update) 5)
        goodUpdate).steadyStateFrames + 55}
    hlt (by dsimp only; rw [hGS]; norm_num [steadyStateFramesThreshold])
  refine ⟨evaluate_improve_wait, evaluate_improve_apply, h5L, ?_, ?_, ?_, ?_, ?_⟩
  · rw [evaluate_improve_wait _ hlt (by rw [hGS]; norm_num [steadyStateFramesThreshold])]
    exact hGL
  · rw [evaluate_improve_wait _ hlt (by rw [hGS]; norm_num [steadyStateFramesThreshold])]
    dsimp only
    rw [hGS]
  · rw [h55]
    exact hGL
  · rw [h56, h55, happ.1]
    exact hT
  · rw [h56, h55]
    exact happ.2

/-- Witness for C5: a transient good tick at level 3 only bumps the
counter; with the counter at 59 the next good tick improves the level to
0 and resets the counter. -/
theorem C5_hysteresis_witness :
    evaluatePerformance {initialQC with degradationLevel := 3}
        = {initialQC with degradationLevel := 3, steadyStateFrames := 1}
    ∧ (evaluatePerformance
        {initialQC with degradationLevel := 3, steadyStateFrames := 59}).degradationLevel = 0
    ∧ (evaluatePerformance
        {initialQC with degradationLevel := 3, steadyStateFrames := 59}).steadyStateFrames = 0 := by
  refine ⟨?_, ?_, ?_⟩
  · exact C5_hysteresis.1 {initialQC with degradationLevel := 3}
      (by norm_num [evaluateTicks, evaluatePerformance, applyDegradation, calculatePerformanceScore,
      getTargetDegradation, updateMetrics, initialQC, c6update, goodUpdate, qualityLevels,
      settingsChanged, getDataTypeString, steadyStateFramesThreshold, fpsThresholds,
      frameTimeThresholds, droppedFramesThresholds, uploadLatencyThresholds])
      (by norm_num [initialQC, steadyStateFramesThreshold])
  · have h := C5_hysteresis.2.1 {initialQC with degradationLevel := 3, steadyStateFrames := 59}
      (by norm_num [evaluateTicks, evaluatePerformance, applyDegradation, calculatePerformanceScore,
      getTargetDegradation, updateMetrics, initialQC, c6update, goodUpdate, qualityLevels,
      settingsChanged, getDataTypeString, steadyStateFramesThreshold, fpsThresholds,
      frameTimeThresholds, droppedFramesThresholds, uploadLatencyThresholds])
      (by norm_num [initialQC, steadyStateFramesThreshold])
    rw [h.1]
    norm_num [evaluateTicks, evaluatePerformance, applyDegradation, calculatePerformanceScore,
      getTargetDegradation, updateMetrics, initialQC, c6update, goodUpdate, qualityLevels,
      settingsChanged, getDataTypeString, steadyStateFramesThreshold, fpsThresholds,
      frameTimeThresholds, droppedFramesThresholds, uploadLatencyThresholds]
  · exact (C5_hysteresis.2.1 {initialQC with degradationLevel := 3, steadyStateFrames := 59}
      (by norm_num [evaluateTicks, evaluatePerformance, applyDegradation, calculatePerformanceScore,
      getTargetDegradation, updateMetrics, initialQC, c6update, goodUpdate, qualityLevels,
      settingsChanged, getDataTypeString, steadyStateFramesThreshold, fpsThresholds,
      frameTimeThresholds, droppedFramesThresholds, uploadLatencyThresholds])
      (by norm_num [initialQC, steadyStateFramesThreshold])).2

set_option maxRecDepth 100000 in
set_option maxHeartbeats 4000000 in
/-- Claim C6 (confirmed): with metrics {fps 10, frame time 100, dropped
20, latency 500} the per-signal scores are 3, 3, 2, 3, averaging 11/4 ≥
5/2, which maps to target level 3; one tick applies the worse level
immediately and selects the most degraded fixed entry (dtype U8 = 0,
downsample 2), and the level stays 3 over further ticks.  In general a
worse target level is applied on the same tick. -/
theorem C6_max_degradation :
    calculatePerformanceScore (updateMetrics initialQC c6update).metrics = 11/4
    ∧ ((5 : ℚ)/2 ≤ 11/4)
    ∧ getTargetDegradation
        (calculatePerformanceScore (updateMetrics initialQC c6update).metrics) = 3
    ∧ (evaluatePerformance (updateMetrics initialQC c6update)).degradationLevel = 3
    ∧ (evaluatePerformance (updateMetrics initialQC c6update)).currentSettings.dtype = 0
    ∧ (evaluatePerformance (updateMetrics initialQC c6update)).currentSettings.downsample = 2
    ∧ (evaluateTicks (updateMetrics initialQC c6update) 4).degradationLevel = 3
    ∧ (∀ st : QCState,
        st.degradationLevel < getTargetDegradation (calculatePerformanceScore st.metrics) →
        (evaluatePerformance st).degradationLevel
            = getTargetDegradation (calculatePerformanceScore st.metrics)
        ∧ (evaluatePerformance st).steadyStateFrames = 0) := by
  refine ⟨?_, by norm_num, ?_, ?_, ?_, ?_, ?_, fun st h => evaluate_degrade st h⟩
  all_goals
    norm_num [evaluateTicks, evaluatePerformance, applyDegradation, calculatePerformanceScore,
      getTargetDegradation, updateMetrics, initialQC, c6update, goodUpdate, qualityLevels,
      settingsChanged, getDataTypeString, steadyStateFramesThreshold, fpsThresholds,
      frameTimeThresholds, droppedFramesThresholds, uploadLatencyThresholds]

/-- Witness for C6: the degrade-immediately conjunct instantiated on the
scenario state itself. -/
theorem C6_max_degradation_witness :
    (evaluatePerformance (updateMetrics initialQC c6update)).degradationLevel
        = getTargetDegradation
            (calculatePerformanceScore (updateMetrics initialQC c6update).metrics)
    ∧ (evaluatePerformance (updateMetrics initialQC c6update)).steadyStateFrames = 0 :=
  C6_max_degradation.2.2.2.2.2.2.2 (updateMetrics initialQC c6update)
    (by norm_num [calculatePerformanceScore, getTargetDegradation, updateMetrics, initialQC,
      c6update, fpsThresholds, frameTimeThresholds, droppedFramesThresholds,
      uploadLatencyThresholds])

end RemoteView
